import Mathlib

/-!
Verification of the dwarf_query type-description and memory-decoding model
(panda/plugins/syscalls_logger/dwarf_query.h).

The C++ header declares:
  * `DataType`            — the closed tag set of type categories;
  * `PrimitiveVariant`    — the typesafe union of readable primitive values;
  * `ReadableDataType`    — the per-field type descriptor, with constructors
                            and the `get_arr_size` method;
  * `StructDef`           — an aggregate definition (name, size, members);
  * `struct_hashtable` / `func_hashtable` — the catalog maps;
  * `read_member` / `load_json` — the decoder and the schema loader
                            (declared in the header; their bodies live in
                            dwarf_query.cpp, which is not part of the sources
                            verified here, so those bodies are modelled from
                            the specification where noted).

Machine integers are modelled as `Nat`; C++ undefined behaviour (division or
modulo by zero) and `assert` aborts are made explicit as outcome tags.
-/

-- Categorization for primitive types (dwarf_query.h, enum DataType, lines 32-43)
inductive DataType where
  | VOID
  | BOOL
  | CHAR
  | INT
  | FLOAT
  | STRUCT
  | FUNC
  | ARRAY
  | UNION
  | ENUM
deriving DecidableEq, Repr

/-- The ten tags of the DataType enumeration, in declaration order. -/
def data_type_tags : List DataType :=
  [DataType.VOID, DataType.BOOL, DataType.CHAR, DataType.INT, DataType.FLOAT,
   DataType.STRUCT, DataType.FUNC, DataType.ARRAY, DataType.UNION, DataType.ENUM]

/-- Typesafe union for readable primitives (dwarf_query.h, PrimitiveVariant,
lines 18-29).  The three floating-point alternatives carry the raw decoded bit
pattern (the decoder only assembles bytes; it performs no float arithmetic),
and the final alternative models the raw byte-pointer arm as the address
value. -/
inductive PrimitiveVariant where
  | vBool (b : Bool)
  | vChar (c : Int)
  | vInt (i : Int)
  | vLongInt (i : Int)
  | vUnsigned (u : Nat)
  | vLongUnsigned (u : Nat)
  | vFloat (bits : Nat)
  | vDouble (bits : Nat)
  | vLongDouble (bits : Nat)
  | vBytePtr (addr : Nat)
deriving DecidableEq, Repr

/-- Information to read a primitive type (dwarf_query.h, class
ReadableDataType, fields at lines 51-67). -/
structure ReadableDataType where
  name : String
  size_bytes : Nat
  offset_bytes : Nat
  type : DataType
  is_ptr : Bool
  is_double_ptr : Bool
  is_le : Bool
  is_signed : Bool
  is_valid : Bool
  ptr_trgt_name : String
  arr_member_name : String
  arr_member_type : DataType
  arr_member_size_bytes : Nat
deriving DecidableEq, Repr

/-- Outcome of a call to ReadableDataType::get_arr_size.  `ok n` is a normal
return of the C++ int `n`; `assertFail` is an abort of the
`assert((size_bytes % arr_member_size_bytes) == 0)` macro (its condition
evaluated to false); `undefined` marks the case where evaluating
`size_bytes % arr_member_size_bytes` itself divides by zero, which is
undefined behaviour in C++ (there is no guard on `arr_member_size_bytes` in
the source). -/
inductive ArrSizeResult where
  | ok (n : Int)
  | assertFail
  | undefined
deriving DecidableEq, Repr

/-- Get array size (dwarf_query.h, lines 82-93).  Direct transcription of

    if (type == DataType::ARRAY) {
        if (size_bytes) {
            assert((size_bytes % arr_member_size_bytes) == 0);
            return (size_bytes / arr_member_size_bytes);
        } else { return 0; }
    } else { return -1; }

with the assert abort and the divide-by-zero undefined behaviour surfaced as
explicit outcomes. -/
def ReadableDataType.get_arr_size (rdt : ReadableDataType) : ArrSizeResult :=
  if rdt.type = DataType.ARRAY then
    if rdt.size_bytes ≠ 0 then
      if rdt.arr_member_size_bytes = 0 then
        ArrSizeResult.undefined
      else if rdt.size_bytes % rdt.arr_member_size_bytes = 0 then
        ArrSizeResult.ok (rdt.size_bytes / rdt.arr_member_size_bytes)
      else
        ArrSizeResult.assertFail
    else
      ArrSizeResult.ok 0
  else
    ArrSizeResult.ok (-1)

/-- A baseline descriptor used to build concrete test descriptors; every
field is given explicitly (the Lean structure has no uninitialized state). -/
def baseRDT : ReadableDataType :=
  { name := "base"
    size_bytes := 0
    offset_bytes := 0
    type := DataType.VOID
    is_ptr := false
    is_double_ptr := false
    is_le := true
    is_signed := false
    is_valid := true
    ptr_trgt_name := "{none}"
    arr_member_name := "{none}"
    arr_member_type := DataType.VOID
    arr_member_size_bytes := 0 }

-- Concrete descriptors for get_arr_size -------------------------------------

/-- Array descriptor, 40 bytes total, 10-byte elements. -/
def rdt_arr_40_10 : ReadableDataType :=
  { baseRDT with type := DataType.ARRAY, size_bytes := 40, arr_member_size_bytes := 10 }

/-- Array descriptor, 41 bytes total, 10-byte elements (not a multiple). -/
def rdt_arr_41_10 : ReadableDataType :=
  { baseRDT with type := DataType.ARRAY, size_bytes := 41, arr_member_size_bytes := 10 }

/-- Array descriptor with unknown (zero) total size. -/
def rdt_arr_0_10 : ReadableDataType :=
  { baseRDT with type := DataType.ARRAY, size_bytes := 0, arr_member_size_bytes := 10 }

/-- Array descriptor with nonzero size and zero element size. -/
def rdt_arr_41_0 : ReadableDataType :=
  { baseRDT with type := DataType.ARRAY, size_bytes := 41, arr_member_size_bytes := 0 }

/-- Non-array (int) descriptor. -/
def rdt_int_4 : ReadableDataType :=
  { baseRDT with type := DataType.INT, size_bytes := 4, arr_member_size_bytes := 10 }

-- Claim theorems on get_arr_size --------------------------------------------

/-- Claim C1: for every array-category descriptor whose size_bytes is nonzero
and an exact multiple of arr_member_size_bytes, get_arr_size returns
size_bytes / arr_member_size_bytes; for every array descriptor whose
size_bytes is 0, get_arr_size returns 0. -/
theorem C1_get_arr_size_quotient (rdt : ReadableDataType) :
    (rdt.type = DataType.ARRAY → rdt.size_bytes ≠ 0 →
      rdt.arr_member_size_bytes ∣ rdt.size_bytes →
      rdt.get_arr_size =
        ArrSizeResult.ok ((rdt.size_bytes / rdt.arr_member_size_bytes : Nat) : Int)) ∧
    (rdt.type = DataType.ARRAY → rdt.size_bytes = 0 →
      rdt.get_arr_size = ArrSizeResult.ok 0) := by
  constructor
  · intro harr hsz hdvd
    have hm : rdt.arr_member_size_bytes ≠ 0 := by
      intro h0
      rw [h0] at hdvd
      exact hsz (Nat.eq_zero_of_zero_dvd hdvd)
    have hmod : rdt.size_bytes % rdt.arr_member_size_bytes = 0 :=
      Nat.dvd_iff_mod_eq_zero.mp hdvd
    simp [ReadableDataType.get_arr_size, harr, hsz, hm, hmod]
  · intro harr hsz
    simp [ReadableDataType.get_arr_size, harr, hsz]

/-- Witness for C1 at concrete inputs: 40 / 10 elements is 4, and the
zero-size array reports 0 elements. -/
theorem C1_get_arr_size_quotient_witness :
    rdt_arr_40_10.get_arr_size = ArrSizeResult.ok 4 ∧
    rdt_arr_0_10.get_arr_size = ArrSizeResult.ok 0 :=
  ⟨(C1_get_arr_size_quotient rdt_arr_40_10).1 rfl (by decide) (by decide),
   (C1_get_arr_size_quotient rdt_arr_0_10).2 rfl rfl⟩

/-- Claim C2 counterexample: an array descriptor with size_bytes = 41 and
arr_member_size_bytes = 0 has a nonzero size that is not a multiple of the
element size, yet calling get_arr_size is not an assertion failure: the
modulo inside the assert condition divides by zero, which is undefined
behaviour, not a firing assert. -/
theorem C2_counterexample :
    rdt_arr_41_0.type = DataType.ARRAY ∧
    rdt_arr_41_0.size_bytes ≠ 0 ∧
    ¬ (rdt_arr_41_0.arr_member_size_bytes ∣ rdt_arr_41_0.size_bytes) ∧
    rdt_arr_41_0.get_arr_size ≠ ArrSizeResult.assertFail ∧
    rdt_arr_41_0.get_arr_size = ArrSizeResult.undefined := by
  refine ⟨rfl, by decide, by decide, by decide, by decide⟩

/-- Claim C2 (amended): for every array-category descriptor with nonzero
size_bytes, nonzero arr_member_size_bytes, and size_bytes not a multiple of
arr_member_size_bytes, get_arr_size is an assertion failure; and whenever
size_bytes is zero or a multiple of the element size, the assertion-failure
branch is unreachable (for any descriptor whatsoever). -/
theorem C2_assert_fires_iff_nonmultiple (rdt : ReadableDataType) :
    (rdt.type = DataType.ARRAY → rdt.size_bytes ≠ 0 →
      rdt.arr_member_size_bytes ≠ 0 →
      ¬ (rdt.arr_member_size_bytes ∣ rdt.size_bytes) →
      rdt.get_arr_size = ArrSizeResult.assertFail) ∧
    ((rdt.size_bytes = 0 ∨ rdt.arr_member_size_bytes ∣ rdt.size_bytes) →
      rdt.get_arr_size ≠ ArrSizeResult.assertFail) := by
  constructor
  · intro harr hsz hm hndvd
    have hmod : rdt.size_bytes % rdt.arr_member_size_bytes ≠ 0 := by
      intro h
      exact hndvd (Nat.dvd_iff_mod_eq_zero.mpr h)
    simp [ReadableDataType.get_arr_size, harr, hsz, hm, hmod]
  · intro hpre
    by_cases harr : rdt.type = DataType.ARRAY
    · by_cases hsz : rdt.size_bytes = 0
      · simp [ReadableDataType.get_arr_size, harr, hsz]
      · have hdvd : rdt.arr_member_size_bytes ∣ rdt.size_bytes := hpre.resolve_left hsz
        by_cases hm : rdt.arr_member_size_bytes = 0
        · simp [ReadableDataType.get_arr_size, harr, hsz, hm]
        · have hmod : rdt.size_bytes % rdt.arr_member_size_bytes = 0 :=
            Nat.dvd_iff_mod_eq_zero.mp hdvd
          simp [ReadableDataType.get_arr_size, harr, hsz, hm, hmod]
    · simp [ReadableDataType.get_arr_size, harr]

/-- Witness for the amended C2: 41 bytes over 10-byte elements fires the
assert, while 40 bytes over 10-byte elements cannot reach it. -/
theorem C2_assert_fires_iff_nonmultiple_witness :
    rdt_arr_41_10.get_arr_size = ArrSizeResult.assertFail ∧
    rdt_arr_40_10.get_arr_size ≠ ArrSizeResult.assertFail :=
  ⟨(C2_assert_fires_iff_nonmultiple rdt_arr_41_10).1 rfl (by decide) (by decide) (by decide),
   (C2_assert_fires_iff_nonmultiple rdt_arr_40_10).2 (Or.inr (by decide))⟩

/-- Claim C6: for an array descriptor with nonzero size_bytes, a nonzero
arr_member_size_bytes is a genuine precondition of get_arr_size: with a zero
element size the unguarded modulo/division is reached and the call is
undefined behaviour, and with a nonzero element size the undefined-division
outcome is impossible for every descriptor. -/
theorem C6_requires_nonzero_member_size (rdt : ReadableDataType) :
    (rdt.type = DataType.ARRAY → rdt.size_bytes ≠ 0 →
      rdt.arr_member_size_bytes = 0 →
      rdt.get_arr_size = ArrSizeResult.undefined) ∧
    (rdt.arr_member_size_bytes ≠ 0 →
      rdt.get_arr_size ≠ ArrSizeResult.undefined) := by
  constructor
  · intro harr hsz hm
    simp [ReadableDataType.get_arr_size, harr, hsz, hm]
  · intro hm
    by_cases harr : rdt.type = DataType.ARRAY
    · by_cases hsz : rdt.size_bytes = 0
      · simp [ReadableDataType.get_arr_size, harr, hsz]
      · by_cases hmod : rdt.size_bytes % rdt.arr_member_size_bytes = 0
        · simp [ReadableDataType.get_arr_size, harr, hsz, hm, hmod]
        · simp [ReadableDataType.get_arr_size, harr, hsz, hm, hmod]
    · simp [ReadableDataType.get_arr_size, harr]

/-- Witness for C6: the 41-byte array with zero element size is undefined
behaviour, and the 40-byte array with 10-byte elements is not. -/
theorem C6_requires_nonzero_member_size_witness :
    rdt_arr_41_0.get_arr_size = ArrSizeResult.undefined ∧
    rdt_arr_40_10.get_arr_size ≠ ArrSizeResult.undefined :=
  ⟨(C6_requires_nonzero_member_size rdt_arr_41_0).1 rfl (by decide) rfl,
   (C6_requires_nonzero_member_size rdt_arr_40_10).2 (by decide)⟩

/-- Claim C10: for every descriptor whose category is not array, get_arr_size
returns -1, regardless of size_bytes and arr_member_size_bytes. -/
theorem C10_non_array_returns_neg_one (rdt : ReadableDataType)
    (h : rdt.type ≠ DataType.ARRAY) :
    rdt.get_arr_size = ArrSizeResult.ok (-1) := by
  simp [ReadableDataType.get_arr_size, h]

/-- Witness for C10 at a concrete non-array descriptor. -/
theorem C10_non_array_returns_neg_one_witness :
    rdt_int_4.get_arr_size = ArrSizeResult.ok (-1) :=
  C10_non_array_returns_neg_one rdt_int_4 (by decide)

-- Claim C7: closed tag set ---------------------------------------------------

/-- Claim C7: the Type Category tag set is closed and consists of exactly the
ten tags void, bool, char, int, float, struct, function, array, union, enum:
every value of DataType (the category field of a descriptor) is one of the
ten listed tags, the ten tags are pairwise distinct, and there are exactly
ten of them. -/
theorem C7_data_type_closed :
    (∀ d : DataType, d ∈ data_type_tags) ∧
    data_type_tags.Nodup ∧ data_type_tags.length = 10 := by
  refine ⟨?_, by decide, rfl⟩
  intro d
  cases d <;> decide

-- Claim C5: constructor field initialization ---------------------------------

/-- Construction-time view of a ReadableDataType: each field is `some v` when
the C++ constructor's member-initializer list gives it value `v`, and `none`
when the initializer list omits it (a non-class member omitted from the list
is default-initialized to an indeterminate value in C++). -/
structure RDTInit where
  name : Option String
  size_bytes : Option Nat
  offset_bytes : Option Nat
  type : Option DataType
  is_ptr : Option Bool
  is_double_ptr : Option Bool
  is_le : Option Bool
  is_signed : Option Bool
  is_valid : Option Bool
  ptr_trgt_name : Option String
  arr_member_name : Option String
  arr_member_type : Option DataType
  arr_member_size_bytes : Option Nat
deriving DecidableEq, Repr

/-- Pointer constructor (dwarf_query.h, lines 70-73).  Transcribes the
member-initializer list

    name(ptr_name), size_bytes(0), offset_bytes(0), type(DataType::VOID),
    is_ptr(false), is_double_ptr(false), is_le(true), is_signed(false),
    ptr_trgt_name(dst_name),
    arr_member_name("\x7bnone\x7d"), arr_member_type(DataType::VOID),
    arr_member_size_bytes(0)

which does not mention `is_valid`; that member is therefore left
default-initialized (indeterminate), recorded here as `none`. -/
def mkPtrReadableDataType (ptr_name dst_name : String) : RDTInit :=
  { name := some ptr_name
    size_bytes := some 0
    offset_bytes := some 0
    type := some DataType.VOID
    is_ptr := some false
    is_double_ptr := some false
    is_le := some true
    is_signed := some false
    is_valid := none
    ptr_trgt_name := some dst_name
    arr_member_name := some "{none}"
    arr_member_type := some DataType.VOID
    arr_member_size_bytes := some 0 }

/-- Named type constructor (dwarf_query.h, line 76): delegates to the pointer
constructor with dst_name "\x7bnone\x7d". -/
def mkNamedReadableDataType (type_name : String) : RDTInit :=
  mkPtrReadableDataType type_name "{none}"

/-- No-args constructor (dwarf_query.h, line 79): delegates to the named-type
constructor with name "\x7bunknown\x7d". -/
def mkDefaultReadableDataType : RDTInit :=
  mkNamedReadableDataType "{unknown}"

/-- True when every field of the construction-time view carries an
initializer value. -/
def RDTInit.fully_initialized (r : RDTInit) : Bool :=
  r.name.isSome && r.size_bytes.isSome && r.offset_bytes.isSome &&
  r.type.isSome && r.is_ptr.isSome && r.is_double_ptr.isSome &&
  r.is_le.isSome && r.is_signed.isSome && r.is_valid.isSome &&
  r.ptr_trgt_name.isSome && r.arr_member_name.isSome &&
  r.arr_member_type.isSome && r.arr_member_size_bytes.isSome

/-- True when every field other than is_valid carries an initializer value. -/
def RDTInit.initialized_except_is_valid (r : RDTInit) : Bool :=
  r.name.isSome && r.size_bytes.isSome && r.offset_bytes.isSome &&
  r.type.isSome && r.is_ptr.isSome && r.is_double_ptr.isSome &&
  r.is_le.isSome && r.is_signed.isSome &&
  r.ptr_trgt_name.isSome && r.arr_member_name.isSome &&
  r.arr_member_type.isSome && r.arr_member_size_bytes.isSome

/-- Claim C5 counterexample: the pointer constructor (to which the other two
constructors delegate) does not initialize every field — is_valid is absent
from its member-initializer list, so a freshly constructed descriptor's
validity flag is indeterminate. -/
theorem C5_counterexample :
    (mkPtrReadableDataType "p" "T").is_valid = none ∧
    (mkPtrReadableDataType "p" "T").fully_initialized = false ∧
    mkDefaultReadableDataType.is_valid = none ∧
    mkDefaultReadableDataType.fully_initialized = false := by
  refine ⟨rfl, rfl, rfl, rfl⟩

/-- Claim C5 (amended): every constructor of ReadableDataType initializes
every field except is_valid; is_valid is omitted from the pointer
constructor's initializer list, and the named-type and no-args constructors
delegate to it, so all three leave the validity flag indeterminate. -/
theorem C5_constructors_init_all_but_is_valid
    (ptr_name dst_name type_name : String) :
    (mkPtrReadableDataType ptr_name dst_name).initialized_except_is_valid = true ∧
    (mkPtrReadableDataType ptr_name dst_name).is_valid = none ∧
    (mkNamedReadableDataType type_name).initialized_except_is_valid = true ∧
    (mkNamedReadableDataType type_name).is_valid = none ∧
    mkDefaultReadableDataType.initialized_except_is_valid = true ∧
    mkDefaultReadableDataType.is_valid = none :=
  ⟨rfl, rfl, rfl, rfl, rfl, rfl⟩

-- Memory decoder (read_member) -----------------------------------------------

/-- The injected memory-access capability: read_bytes(address, length) either
returns the bytes or faults (spec section 6; in the source this is the
CPUState-based virtual-memory read behind read_member). -/
abbrev MemCap := Nat → Nat → Option (List Nat)

/-- Little-endian byte assembly: the head of the list is the least
significant byte. -/
def bytes_to_nat_le : List Nat → Nat
  | [] => 0
  | b :: bs => b + 256 * bytes_to_nat_le bs

/-- Assemble bytes into an unsigned value honoring the descriptor's byte
order. -/
def decode_uint (le : Bool) (bytes : List Nat) : Nat :=
  if le then bytes_to_nat_le bytes else bytes_to_nat_le bytes.reverse

/-- Reinterpret a w-byte unsigned value as a two's-complement signed value. -/
def to_signed (w : Nat) (u : Nat) : Int :=
  if u < 2 ^ (8 * w - 1) then (u : Int) else (u : Int) - 2 ^ (8 * w)

/-- The directly convertible primitive categories of spec section 4.2 step 3. -/
def is_prim_type (t : DataType) : Bool :=
  t = DataType.BOOL || t = DataType.CHAR || t = DataType.INT || t = DataType.FLOAT

/-- Integer widths with a defined conversion (the variant offers int, long,
unsigned, long unsigned). -/
def supported_int_size (n : Nat) : Bool :=
  n = 1 || n = 2 || n = 4 || n = 8

/-- IEEE float widths with a defined conversion: 4 (float), 8 (double), and
the extended long-double widths. -/
def supported_float_size (n : Nat) : Bool :=
  n = 4 || n = 8 || n = 10 || n = 12 || n = 16

/-- Convert raw bytes of a primitive descriptor into a variant value, or none
when the size/category combination has no defined conversion (spec section
4.2 step 3: bool is nonzero-to-true; char is one byte with sign per
is_signed; int is a size_bytes-wide integer with endianness and sign per the
descriptor; float accepts only the supported IEEE widths). -/
def decode_prim (rdt : ReadableDataType) (bytes : List Nat) : Option PrimitiveVariant :=
  match rdt.type with
  | DataType.BOOL =>
      some (PrimitiveVariant.vBool (bytes_to_nat_le bytes ≠ 0))
  | DataType.CHAR =>
      some (PrimitiveVariant.vChar
        (if rdt.is_signed then to_signed 1 (bytes.headD 0) else ((bytes.headD 0 : Nat) : Int)))
  | DataType.INT =>
      if supported_int_size rdt.size_bytes then
        some (if rdt.is_signed then
                if rdt.size_bytes ≤ 4 then
                  PrimitiveVariant.vInt (to_signed rdt.size_bytes (decode_uint rdt.is_le bytes))
                else
                  PrimitiveVariant.vLongInt (to_signed rdt.size_bytes (decode_uint rdt.is_le bytes))
              else
                if rdt.size_bytes ≤ 4 then
                  PrimitiveVariant.vUnsigned (decode_uint rdt.is_le bytes)
                else
                  PrimitiveVariant.vLongUnsigned (decode_uint rdt.is_le bytes))
      else none
  | DataType.FLOAT =>
      if rdt.size_bytes = 4 then
        some (PrimitiveVariant.vFloat (decode_uint rdt.is_le bytes))
      else if rdt.size_bytes = 8 then
        some (PrimitiveVariant.vDouble (decode_uint rdt.is_le bytes))
      else if supported_float_size rdt.size_bytes then
        some (PrimitiveVariant.vLongDouble (decode_uint rdt.is_le bytes))
      else none
  | _ => none

/-- The decode-time failure reasons of spec section 7.  An invalid descriptor
is reported as UnsupportedType (spec section 7, InvalidDescriptor: downstream
decode attempts on it fail with UnsupportedType). -/
inductive DecodeFailure where
  | MemoryFault
  | UnsupportedType
deriving DecidableEq, Repr

/-- Modelled from the spec: the body of read_member (declared at
dwarf_query.h:202-205 but defined in dwarf_query.cpp, which is not among the
sources), written with the spec's own result taxonomy, section 4.2: check
is_valid first without reading; pointers decode the address bytes as an
unsigned value; primitive categories read and convert; anything else is
UnsupportedType; a faulting read is MemoryFault. -/
def read_member_spec (mem : MemCap) (addr : Nat) (rdt : ReadableDataType) :
    Except DecodeFailure PrimitiveVariant :=
  if rdt.is_valid = false then
    Except.error DecodeFailure.UnsupportedType
  else if rdt.is_ptr || rdt.is_double_ptr then
    match mem addr rdt.size_bytes with
    | none => Except.error DecodeFailure.MemoryFault
    | some bytes => Except.ok (PrimitiveVariant.vBytePtr (decode_uint rdt.is_le bytes))
  else if is_prim_type rdt.type then
    match mem addr rdt.size_bytes with
    | none => Except.error DecodeFailure.MemoryFault
    | some bytes =>
      match decode_prim rdt bytes with
      | some v => Except.ok v
      | none => Except.error DecodeFailure.UnsupportedType
  else
    Except.error DecodeFailure.UnsupportedType

/-- The variant payload paired with a false success flag: on failure no data
was read, so the returned variant carries no information (a fixed
placeholder, matching the header comment that the variant is only "a typed
copy of the data" and the bool alone reports success). -/
def err_data : PrimitiveVariant := PrimitiveVariant.vInt 0

/-- Modelled from the spec: the body of read_member with the return type
declared in the source, std::pair of bool and PrimitiveVariant
(dwarf_query.h:205), where per the header comment the bool reports both read
success (paging errors) and type-conversion success.  Instrumented with a
count of memory-capability invocations (second component): validity is
checked before any read; each read costs one invocation. -/
def read_member_instr (mem : MemCap) (addr : Nat) (rdt : ReadableDataType) :
    (Bool × PrimitiveVariant) × Nat :=
  if rdt.is_valid = false then
    ((false, err_data), 0)
  else if rdt.is_ptr || rdt.is_double_ptr then
    match mem addr rdt.size_bytes with
    | none => ((false, err_data), 1)
    | some bytes => ((true, PrimitiveVariant.vBytePtr (decode_uint rdt.is_le bytes)), 1)
  else if is_prim_type rdt.type then
    match mem addr rdt.size_bytes with
    | none => ((false, err_data), 1)
    | some bytes =>
      match decode_prim rdt bytes with
      | some v => ((true, v), 1)
      | none => ((false, err_data), 1)
  else
    ((false, err_data), 0)

/-- Read struct member from memory (dwarf_query.h:205): the value returned to
the caller, a pair of the success bool and the variant. -/
def read_member (mem : MemCap) (addr : Nat) (rdt : ReadableDataType) :
    Bool × PrimitiveVariant :=
  (read_member_instr mem addr rdt).1

/-- Collapse the spec's tagged result into the source's declared pair type:
success keeps the value, every failure becomes the same false flag with the
placeholder payload. -/
def except_to_pair : Except DecodeFailure PrimitiveVariant → Bool × PrimitiveVariant
  | Except.ok v => (true, v)
  | Except.error _ => (false, err_data)

-- Concrete capabilities and descriptors for the decoder claims ---------------

/-- A memory capability that always succeeds, returning bytes of value 1. -/
def mem_all_ones : MemCap := fun _ len => some (List.replicate len 1)

/-- A memory capability that always faults. -/
def mem_fault : MemCap := fun _ _ => none

/-- An invalidated 4-byte int descriptor (the invalid-descriptor condition). -/
def rdt_invalid_int : ReadableDataType :=
  { baseRDT with type := DataType.INT, size_bytes := 4, is_valid := false }

/-- A valid bare struct descriptor (the UnsupportedType condition on a valid
descriptor). -/
def rdt_bare_struct : ReadableDataType :=
  { baseRDT with type := DataType.STRUCT, size_bytes := 8 }

/-- A valid 4-byte int descriptor (faults only if memory faults). -/
def rdt_valid_int : ReadableDataType :=
  { baseRDT with type := DataType.INT, size_bytes := 4 }

-- Claim C3: failure reporting of read_member ---------------------------------

/-- Claim C3 counterexample: the three decode-time failure conditions are not
mutually distinguishable from read_member's returned value.  At concrete
inputs, the invalid-descriptor condition (rdt_invalid_int), the
UnsupportedType condition on a valid descriptor (rdt_bare_struct), and the
MemoryFault condition (rdt_valid_int against a faulting capability) all
return the very same pair; even under the spec's own result taxonomy the
invalid-descriptor condition and the UnsupportedType condition yield the
identical result. -/
theorem C3_counterexample :
    rdt_invalid_int.is_valid = false ∧
    rdt_bare_struct.is_valid = true ∧
    rdt_valid_int.is_valid = true ∧
    read_member_spec mem_fault 0 rdt_valid_int = Except.error DecodeFailure.MemoryFault ∧
    read_member mem_all_ones 0 rdt_invalid_int = read_member mem_all_ones 0 rdt_bare_struct ∧
    read_member mem_fault 0 rdt_valid_int = read_member mem_all_ones 0 rdt_invalid_int ∧
    read_member_spec mem_all_ones 0 rdt_invalid_int = read_member_spec mem_all_ones 0 rdt_bare_struct :=
  ⟨rfl, rfl, rfl, rfl, rfl, rfl, rfl⟩

/-- Claim C3 (amended): every decode-time failure of read_member is returned
as an explicit result — the pair refines the spec's tagged result, a failure
always comes back with the success flag false and the placeholder payload
(never silently coerced to a default value presented as success), and a
success always carries the decoded value with the flag true; however the
failure conditions are conflated into that single false flag rather than
being mutually distinguishable. -/
theorem C3_failures_explicit_but_conflated (mem : MemCap) (addr : Nat)
    (rdt : ReadableDataType) :
    read_member mem addr rdt = except_to_pair (read_member_spec mem addr rdt) ∧
    (∀ e, read_member_spec mem addr rdt = Except.error e →
        read_member mem addr rdt = (false, err_data)) ∧
    (∀ v, read_member_spec mem addr rdt = Except.ok v →
        read_member mem addr rdt = (true, v)) := by
  have h : read_member mem addr rdt = except_to_pair (read_member_spec mem addr rdt) := by
    unfold read_member read_member_instr read_member_spec
    by_cases hv : rdt.is_valid = false
    · simp [hv, except_to_pair]
    · by_cases hp : (rdt.is_ptr || rdt.is_double_ptr) = true
      · rcases hm : mem addr rdt.size_bytes with _ | bytes <;>
          simp [hv, hp, hm, except_to_pair]
      · by_cases ht : is_prim_type rdt.type = true
        · rcases hm : mem addr rdt.size_bytes with _ | bytes
          · simp [hv, hp, ht, hm, except_to_pair]
          · rcases hd : decode_prim rdt bytes with _ | v <;>
              simp [hv, hp, ht, hm, hd, except_to_pair]
        · simp [hv, hp, ht, except_to_pair]
  refine ⟨h, ?_, ?_⟩
  · intro e he
    rw [h, he]
    rfl
  · intro v hv
    rw [h, hv]
    rfl

/-- Witness for the amended C3: a concrete memory fault comes back as the
explicit failure pair, and a concrete successful int read comes back flagged
true with the decoded value. -/
theorem C3_failures_explicit_but_conflated_witness :
    read_member mem_fault 0 rdt_valid_int = (false, err_data) ∧
    read_member mem_all_ones 0 rdt_valid_int =
      (true, PrimitiveVariant.vUnsigned 16843009) :=
  ⟨(C3_failures_explicit_but_conflated mem_fault 0 rdt_valid_int).2.1
      DecodeFailure.MemoryFault rfl,
   (C3_failures_explicit_but_conflated mem_all_ones 0 rdt_valid_int).2.2
      (PrimitiveVariant.vUnsigned 16843009) rfl⟩

-- Claim C4: invalid descriptor fails immediately without reading -------------

/-- Claim C4: for every descriptor with is_valid false, every address and
every memory capability, read_member fails with UnsupportedType (under the
spec's result taxonomy; as the source-typed pair, the explicit failure pair)
and invokes the memory-access capability zero times. -/
theorem C4_invalid_descriptor_no_read (mem : MemCap) (addr : Nat)
    (rdt : ReadableDataType) (h : rdt.is_valid = false) :
    read_member_spec mem addr rdt = Except.error DecodeFailure.UnsupportedType ∧
    read_member mem addr rdt = (false, err_data) ∧
    (read_member_instr mem addr rdt).2 = 0 := by
  refine ⟨?_, ?_, ?_⟩ <;>
    simp [read_member_spec, read_member, read_member_instr, h]

/-- Witness for C4 at a concrete invalid descriptor, address and capability. -/
theorem C4_invalid_descriptor_no_read_witness :
    read_member_spec mem_all_ones 7 rdt_invalid_int =
      Except.error DecodeFailure.UnsupportedType ∧
    read_member mem_all_ones 7 rdt_invalid_int = (false, err_data) ∧
    (read_member_instr mem_all_ones 7 rdt_invalid_int).2 = 0 :=
  C4_invalid_descriptor_no_read mem_all_ones 7 rdt_invalid_int rfl

-- Catalog: function entry address to function name (func_hashtable) ----------

/-- The function mapping of the catalog (dwarf_query.h:198,
std::map of unsigned to std::string), embedded as an association list whose
well-formedness invariant is the std::map invariant: keys strictly
increasing. -/
abbrev FuncMap := List (Nat × String)

/-- The std::map key invariant: entries strictly ordered by address, hence
keys unique. -/
def func_sorted (l : FuncMap) : Prop :=
  List.Pairwise (fun a b : Nat × String => a.1 < b.1) l

instance (l : FuncMap) : Decidable (func_sorted l) := by
  unfold func_sorted
  infer_instance

/-- The empty function map (the catalog before loading). -/
def func_empty : FuncMap := []

/-- Ordered insertion, the effect of std::map insertion on the underlying
ordered structure: a new key is placed at its ordered position; inserting an
existing key leaves the map unchanged. -/
def func_insert : FuncMap → Nat → String → FuncMap
  | [], k, v => [(k, v)]
  | (k0, v0) :: rest, k, v =>
    if k < k0 then (k, v) :: (k0, v0) :: rest
    else if k = k0 then (k0, v0) :: rest
    else (k0, v0) :: func_insert rest k v

/-- Range-style lookup over the ordered map: the entry with the greatest key
at or below the query address (the "which function contains this address"
lookup). -/
def func_lookup_le : FuncMap → Nat → Option (Nat × String)
  | [], _ => none
  | (k0, v0) :: rest, a =>
    if a < k0 then none
    else
      match func_lookup_le rest a with
      | some p => some p
      | none => some (k0, v0)

-- Helper lemmas for the ordered-map invariant --------------------------------

lemma func_insert_mem (l : FuncMap) (k : Nat) (v : String) (q : Nat × String)
    (hq : q ∈ func_insert l k v) : q = (k, v) ∨ q ∈ l := by
  induction l with
  | nil =>
    simp [func_insert] at hq
    exact Or.inl hq
  | cons hd rest ih =>
    rcases hd with ⟨k0, v0⟩
    by_cases h1 : k < k0
    · have e : func_insert ((k0, v0) :: rest) k v = (k, v) :: (k0, v0) :: rest := by
        simp [func_insert, h1]
      rw [e] at hq
      rcases List.mem_cons.mp hq with h | h
      · exact Or.inl h
      · exact Or.inr h
    · by_cases h2 : k = k0
      · have e : func_insert ((k0, v0) :: rest) k v = (k0, v0) :: rest := by
          simp [func_insert, h1, h2]
        rw [e] at hq
        exact Or.inr hq
      · have e : func_insert ((k0, v0) :: rest) k v = (k0, v0) :: func_insert rest k v := by
          simp [func_insert, h1, h2]
        rw [e] at hq
        rcases List.mem_cons.mp hq with h | h
        · exact Or.inr (List.mem_cons.mpr (Or.inl h))
        · rcases ih h with h' | h'
          · exact Or.inl h'
          · exact Or.inr (List.mem_cons.mpr (Or.inr h'))

lemma func_insert_sorted (l : FuncMap) (k : Nat) (v : String)
    (hs : func_sorted l) : func_sorted (func_insert l k v) := by
  induction l with
  | nil =>
    simp [func_insert, func_sorted]
  | cons hd rest ih =>
    rcases hd with ⟨k0, v0⟩
    rw [func_sorted, List.pairwise_cons] at hs
    rcases hs with ⟨hhead, htail⟩
    by_cases h1 : k < k0
    · have e : func_insert ((k0, v0) :: rest) k v = (k, v) :: (k0, v0) :: rest := by
        simp [func_insert, h1]
      rw [func_sorted, e, List.pairwise_cons]
      refine ⟨?_, List.pairwise_cons.mpr ⟨hhead, htail⟩⟩
      intro b hb
      rcases List.mem_cons.mp hb with h | h
      · rw [h]
        exact h1
      · exact lt_trans h1 (hhead b h)
    · by_cases h2 : k = k0
      · have e : func_insert ((k0, v0) :: rest) k v = (k0, v0) :: rest := by
          simp [func_insert, h1, h2]
        rw [func_sorted, e, List.pairwise_cons]
        exact ⟨hhead, htail⟩
      · have h3 : k0 < k := by omega
        have e : func_insert ((k0, v0) :: rest) k v = (k0, v0) :: func_insert rest k v := by
          simp [func_insert, h1, h2]
        rw [func_sorted, e, List.pairwise_cons]
        constructor
        · intro b hb
          rcases func_insert_mem rest k v b hb with h | h
          · rw [h]
            exact h3
          · exact hhead b h
        · exact ih htail

lemma func_sorted_keys_nodup (l : FuncMap) (hs : func_sorted l) :
    (l.map Prod.fst).Nodup := by
  have h : List.Pairwise (fun a b : Nat × String => a.1 ≠ b.1) l :=
    hs.imp (fun h => Nat.ne_of_lt h)
  simpa [List.Nodup, List.pairwise_map] using h

lemma func_lookup_le_none (l : FuncMap) (a : Nat) (hs : func_sorted l)
    (h : func_lookup_le l a = none) : ∀ q ∈ l, a < q.1 := by
  cases l with
  | nil =>
    intro q hq
    simp at hq
  | cons hd rest =>
    rcases hd with ⟨k0, v0⟩
    rw [func_sorted, List.pairwise_cons] at hs
    by_cases ha : a < k0
    · intro q hq
      rcases List.mem_cons.mp hq with hq | hq
      · rw [hq]
        exact ha
      · exact lt_trans ha (hs.1 q hq)
    · exfalso
      rcases hrec : func_lookup_le rest a with _ | p <;>
        simp [func_lookup_le, ha, hrec] at h

lemma func_lookup_le_some (l : FuncMap) (a : Nat) (p : Nat × String)
    (hs : func_sorted l) (h : func_lookup_le l a = some p) :
    p ∈ l ∧ p.1 ≤ a ∧ ∀ q ∈ l, q.1 ≤ a → q.1 ≤ p.1 := by
  induction l with
  | nil => simp [func_lookup_le] at h
  | cons hd rest ih =>
    rcases hd with ⟨k0, v0⟩
    rw [func_sorted, List.pairwise_cons] at hs
    rcases hs with ⟨hhead, htail⟩
    by_cases ha : a < k0
    · simp [func_lookup_le, ha] at h
    · rcases hrec : func_lookup_le rest a with _ | p'
      · have e : func_lookup_le ((k0, v0) :: rest) a = some (k0, v0) := by
          simp [func_lookup_le, ha, hrec]
        rw [e] at h
        obtain rfl : (k0, v0) = p := Option.some.inj h
        refine ⟨List.mem_cons_self _ _, Nat.le_of_not_lt ha, ?_⟩
        intro q hq hqa
        rcases List.mem_cons.mp hq with hq | hq
        · rw [hq]
        · exact absurd hqa (Nat.not_le.mpr (func_lookup_le_none rest a htail hrec q hq))
      · have e : func_lookup_le ((k0, v0) :: rest) a = some p' := by
          simp [func_lookup_le, ha, hrec]
        rw [e] at h
        obtain rfl : p' = p := Option.some.inj h
        rcases ih htail hrec with ⟨hmem, hle, hmax⟩
        refine ⟨List.mem_cons.mpr (Or.inr hmem), hle, ?_⟩
        intro q hq hqa
        rcases List.mem_cons.mp hq with hq | hq
        · rw [hq]
          exact le_of_lt (hhead _ hmem)
        · exact hmax q hq hqa

/-- Claim C8: the catalog's function mapping keeps its keys unique and
ordered by address — the empty map satisfies the invariant, insertion
preserves it, under it the key list is duplicate-free, and the range-style
"nearest entry at or below a given address" lookup is well-defined over it:
when it answers, the answer is an entry of the map with the greatest key not
exceeding the query address, and when it declines every key of the map lies
above the query address. -/
theorem C8_func_map_ordered_unique :
    func_sorted func_empty ∧
    (∀ l k v, func_sorted l → func_sorted (func_insert l k v)) ∧
    (∀ l, func_sorted l → (l.map Prod.fst).Nodup) ∧
    (∀ l a p, func_sorted l → func_lookup_le l a = some p →
      p ∈ l ∧ p.1 ≤ a ∧ ∀ q ∈ l, q.1 ≤ a → q.1 ≤ p.1) ∧
    (∀ l a, func_sorted l → func_lookup_le l a = none → ∀ q ∈ l, a < q.1) :=
  ⟨List.Pairwise.nil,
   func_insert_sorted,
   func_sorted_keys_nodup,
   fun l a p hs h => func_lookup_le_some l a p hs h,
   fun l a hs h => func_lookup_le_none l a hs h⟩

/-- Witness for C8 at concrete maps: inserting 3 between 2 and 5 keeps the
map ordered, the two-entry map has duplicate-free keys, and the
nearest-at-or-below lookup answer for address 4 is a map entry with key at
most 4. -/
theorem C8_func_map_ordered_unique_witness :
    func_sorted (func_insert [(2, "g"), (5, "f")] 3 "h") ∧
    (([(2, "g"), (5, "f")] : FuncMap).map Prod.fst).Nodup ∧
    (((3, "h") : Nat × String) ∈ ([(2, "g"), (3, "h"), (5, "f")] : FuncMap) ∧
      (3 : Nat) ≤ 4) :=
  ⟨C8_func_map_ordered_unique.2.1 [(2, "g"), (5, "f")] 3 "h" (by decide),
   C8_func_map_ordered_unique.2.2.1 [(2, "g"), (5, "f")] (by decide),
   ⟨(C8_func_map_ordered_unique.2.2.2.1 [(2, "g"), (3, "h"), (5, "f")] 4 (3, "h")
       (by decide) (by decide)).1,
    (C8_func_map_ordered_unique.2.2.2.1 [(2, "g"), (3, "h"), (5, "f")] 4 (3, "h")
       (by decide) (by decide)).2.1⟩⟩

-- Aggregate definitions and the schema loader --------------------------------

/-- An aggregate definition (dwarf_query.h, class StructDef, lines 152-160):
name, total layout size, ordered member descriptors. -/
structure StructDef where
  name : String
  size_bytes : Nat
  members : List ReadableDataType
deriving DecidableEq, Repr

/-- One declared member of a struct entry in the schema document
(spec section 6: ordered member list with per-member offset and nested type
reference). -/
structure DocMember where
  name : String
  kind : String
  size : Nat
  offset : Nat
deriving DecidableEq, Repr

/-- One struct entry of the schema document (spec section 6: a kind-tagged
entry with a size and an ordered member list). -/
structure DocStruct where
  name : String
  size : Nat
  members : List DocMember
deriving DecidableEq, Repr

/-- Modelled from the spec: kind classification of the schema loader
(load_json lives in dwarf_query.cpp, not among the sources).  Spec section
4.1 step 1: classify by the declared kind tag, unrecognized kinds map to an
invalid descriptor; step 5: bitfields synthesize an int-category descriptor.
The recognized tags follow the comparison strings the header allocates at
lines 179-193. -/
def classify_kind (kind : String) : Option DataType :=
  if kind = "void" then some DataType.VOID
  else if kind = "bool" then some DataType.BOOL
  else if kind = "char" then some DataType.CHAR
  else if kind = "int" then some DataType.INT
  else if kind = "float" then some DataType.FLOAT
  else if kind = "double" then some DataType.FLOAT
  else if kind = "struct" then some DataType.STRUCT
  else if kind = "function" then some DataType.FUNC
  else if kind = "array" then some DataType.ARRAY
  else if kind = "union" then some DataType.UNION
  else if kind = "enum" then some DataType.ENUM
  else if kind = "bitfield" then some DataType.INT
  else none

/-- Modelled from the spec: resolution of one declared struct member into a
descriptor (spec section 4.1 step 4: resolve the member's own descriptor and
set offset_bytes from the declared member offset; the offset is copied
verbatim, no validation against the enclosing size is specified). -/
def member_to_rdt (m : DocMember) : ReadableDataType :=
  { baseRDT with
      name := m.name
      size_bytes := m.size
      offset_bytes := m.offset
      type := (classify_kind m.kind).getD DataType.VOID
      is_valid := (classify_kind m.kind).isSome }

/-- Modelled from the spec: building one aggregate definition from a struct
entry (spec section 4.1 step 4: iterate declared members preserving document
order). -/
def doc_struct_to_structdef (d : DocStruct) : StructDef :=
  { name := d.name
    size_bytes := d.size
    members := d.members.map member_to_rdt }

/-- Modelled from the spec: the struct side of load_json (spec section 4.1
step 7: insert each finished aggregate definition into the catalog keyed by
name).  The populated struct_hashtable is modelled as the resulting
association list. -/
def load_json (doc : List DocStruct) : List (String × StructDef) :=
  doc.map (fun d => (d.name, doc_struct_to_structdef d))

/-- True when every member descriptor of the aggregate lies within its total
size. -/
def struct_offsets_ok (sd : StructDef) : Bool :=
  sd.members.all (fun m => m.offset_bytes < sd.size_bytes)

/-- True when every aggregate of the catalog satisfies the member-offset
bound. -/
def catalog_offsets_ok (c : List (String × StructDef)) : Bool :=
  c.all (fun p => struct_offsets_ok p.2)

/-- True when every declared member offset of the document lies within its
entry's declared size. -/
def doc_offsets_ok (doc : List DocStruct) : Bool :=
  doc.all (fun d => d.members.all (fun m => m.offset < d.size))

/-- A document whose single struct declares a member at offset 5 inside a
4-byte struct. -/
def doc_bad_struct : DocStruct :=
  { name := "S"
    size := 4
    members := [{ name := "m", kind := "int", size := 4, offset := 5 }] }

/-- A well-formed document: struct Task with pid at offset 0 and next at
offset 8, inside 16 bytes. -/
def doc_good_struct : DocStruct :=
  { name := "Task"
    size := 16
    members := [{ name := "pid", kind := "int", size := 4, offset := 0 },
                { name := "next", kind := "struct", size := 8, offset := 8 }] }

/-- Claim C9 counterexample: the loader copies declared offsets verbatim, so
a document declaring a member at offset 5 in a 4-byte struct produces a
catalog whose aggregate contains a member whose offset_bytes is not below
size_bytes; the claimed invariant fails on that catalog. -/
theorem C9_counterexample :
    catalog_offsets_ok (load_json [doc_bad_struct]) = false ∧
    (doc_struct_to_structdef doc_bad_struct).size_bytes = 4 ∧
    ((doc_struct_to_structdef doc_bad_struct).members.map
      ReadableDataType.offset_bytes) = [5] ∧
    ((doc_struct_to_structdef doc_bad_struct).members.all
      (fun m => m.is_valid)) = true :=
  ⟨rfl, rfl, rfl, rfl⟩

/-- Claim C9 (amended): the loader does not enforce the member-offset bound;
member offsets are copied verbatim from the document, so every aggregate
definition in the loaded catalog has all member offset_bytes strictly below
its size_bytes exactly when the document's declared offsets already satisfy
that bound: for every document whose declared member offsets all lie within
their entry's declared size, every aggregate in the loaded catalog satisfies
the invariant. -/
theorem C9_offsets_within_size (doc : List DocStruct)
    (h : doc_offsets_ok doc = true) :
    catalog_offsets_ok (load_json doc) = true := by
  rw [doc_offsets_ok, List.all_eq_true] at h
  rw [catalog_offsets_ok, List.all_eq_true]
  intro p hp
  rw [load_json, List.mem_map] at hp
  rcases hp with ⟨d, hd, rfl⟩
  have hd' := h d hd
  rw [List.all_eq_true] at hd'
  rw [struct_offsets_ok, List.all_eq_true]
  intro m hm
  rw [doc_struct_to_structdef] at hm
  simp only [List.mem_map] at hm
  rcases hm with ⟨dm, hdm, rfl⟩
  have := hd' dm hdm
  simpa [member_to_rdt, doc_struct_to_structdef] using this

/-- Witness for the amended C9: the well-formed Task document loads into a
catalog satisfying the member-offset invariant. -/
theorem C9_offsets_within_size_witness :
    doc_offsets_ok [doc_good_struct] = true ∧
    catalog_offsets_ok (load_json [doc_good_struct]) = true :=
  ⟨rfl, C9_offsets_within_size [doc_good_struct] rfl⟩
